import Mathlib

/-!
Verification of the SolarSystem visualizer (`main.cpp`) against its
natural-language specification.  The C++ source is shallowly embedded:
`float` values become real numbers, C `int` loop counters become `ℤ`,
the GL mesh builders become pure functions returning vertex/index lists,
and the global mutable state mutated by the input callbacks and the frame
loop becomes explicit state passing.  The source's `stacks` parameter is
spelled `stacksN` because `stacks` is a reserved token here.
-/

namespace SolarSystem

/-- Embedding of `glm::vec3` with real components. -/
@[ext] structure Vec3 where
  x : ℝ
  y : ℝ
  z : ℝ

noncomputable instance : Add Vec3 := ⟨fun a b => ⟨a.x + b.x, a.y + b.y, a.z + b.z⟩⟩
noncomputable instance : Sub Vec3 := ⟨fun a b => ⟨a.x - b.x, a.y - b.y, a.z - b.z⟩⟩
noncomputable instance : SMul ℝ Vec3 := ⟨fun c v => ⟨c * v.x, c * v.y, c * v.z⟩⟩

@[simp] theorem Vec3.add_def (a b : Vec3) :
    a + b = ⟨a.x + b.x, a.y + b.y, a.z + b.z⟩ := rfl

@[simp] theorem Vec3.sub_def (a b : Vec3) :
    a - b = ⟨a.x - b.x, a.y - b.y, a.z - b.z⟩ := rfl

@[simp] theorem Vec3.smul_def (c : ℝ) (v : Vec3) :
    c • v = ⟨c * v.x, c * v.y, c * v.z⟩ := rfl

/-- Embedding of `glm::cross`. -/
noncomputable def cross (a b : Vec3) : Vec3 :=
  ⟨a.y * b.z - a.z * b.y, a.z * b.x - a.x * b.z, a.x * b.y - a.y * b.x⟩

/-- Embedding of `glm::dot`. -/
noncomputable def dot (a b : Vec3) : ℝ :=
  a.x * b.x + a.y * b.y + a.z * b.z

/-- Embedding of `glm::normalize` (`v / sqrt(dot(v,v))`). -/
noncomputable def normalize (v : Vec3) : Vec3 :=
  (1 / Real.sqrt (dot v v)) • v

/-- Embedding of `glm::radians`: degrees to radians. -/
noncomputable def radians (d : ℝ) : ℝ := d * Real.pi / 180

/-- Embedding of `glm::clamp(x, lo, hi) = min(max(x, lo), hi)`. -/
noncomputable def clampR (x lo hi : ℝ) : ℝ := min (max x lo) hi

/-- Integer range `[lo, hi]` inclusive, the values taken by a C loop
counter `for (int i = lo; i <= hi; ++i)`; empty when `hi < lo`. -/
def intRangeIncl (lo hi : ℤ) : List ℤ :=
  (List.range (hi + 1 - lo).toNat).map (fun k : ℕ => lo + (k : ℤ))

theorem length_intRangeIncl (lo hi : ℤ) :
    (intRangeIncl lo hi).length = (hi + 1 - lo).toNat := by
  unfold intRangeIncl
  rw [List.length_map, List.length_range]

theorem intRangeIncl_zero_succ (m : ℤ) (h : 0 ≤ m) :
    intRangeIncl 0 m = intRangeIncl 0 (m - 1) ++ [m] := by
  unfold intRangeIncl
  have h1 : (m + 1 - 0).toNat = (m - 1 + 1 - 0).toNat + 1 := by omega
  rw [h1, List.range_succ, List.map_append]
  simp only [List.map_cons, List.map_nil, List.append_cancel_left_eq]
  have h2 : (0 : ℤ) + ((m - 1 + 1 - 0).toNat : ℤ) = m := by omega
  rw [h2]

theorem mem_intRangeIncl {lo hi i : ℤ} (h : i ∈ intRangeIncl lo hi) :
    lo ≤ i ∧ i ≤ hi := by
  unfold intRangeIncl at h
  rw [List.mem_map] at h
  obtain ⟨k, hk, rfl⟩ := h
  rw [List.mem_range] at hk
  omega

theorem length_flatMap_const {α β : Type} (l : List α) (f : α → List β) (c : ℕ)
    (h : ∀ a ∈ l, (f a).length = c) : (l.flatMap f).length = c * l.length := by
  induction l with
  | nil => simp
  | cons a l ih =>
      rw [List.flatMap_cons, List.length_append, List.length_cons,
        h a (by simp), ih (fun b hb => h b (by simp [hb]))]
      ring

/-- Vertex record of the C++ `struct Vtx` (position, normal, UV). -/
structure Vtx where
  p : Vec3
  n : Vec3
  uv : ℝ × ℝ

/-- Vertex/index data produced by a triangle-mesh builder (the CPU-side
contents of the buffers the C++ code uploads to the GPU). -/
structure MeshData where
  vertices : List Vtx
  indices : List ℤ

/-- Point/index data produced by `buildOrbitLine` (line-list topology). -/
structure LineData where
  points : List Vec3
  indices : List ℤ

/-- Single vertex of `buildSphere` at grid cell `(i, j)`: latitude fraction
`fv = i/stacks`, longitude fraction `fu = j/slices`, spherical position
scaled by `r`, normalized normal, `uv = (fu, 1 - fv)`. -/
noncomputable def sphereVtx (stacksN slices : ℤ) (r : ℝ) (i j : ℤ) : Vtx :=
  let fv : ℝ := (i : ℝ) / (stacksN : ℝ)
  let phi : ℝ := fv * Real.pi
  let y : ℝ := Real.cos phi
  let rr : ℝ := Real.sin phi
  let fu : ℝ := (j : ℝ) / (slices : ℝ)
  let th : ℝ := fu * (2 * Real.pi)
  let x : ℝ := rr * Real.cos th
  let z : ℝ := rr * Real.sin th
  { p := r • (⟨x, y, z⟩ : Vec3), n := normalize ⟨x, y, z⟩, uv := (fu, 1 - fv) }

/-- Vertex list of `buildSphere`: the loop runs `i = 0..stacks` and
`j = 0..slices`, both inclusive. -/
noncomputable def sphereVertices (stacksN slices : ℤ) (r : ℝ) : List Vtx :=
  (intRangeIncl 0 stacksN).flatMap (fun i =>
    (intRangeIncl 0 slices).map (fun j => sphereVtx stacksN slices r i j))

/-- Index block pushed by `buildSphere` for quad `(i, j)`:
`r1 = i*(slices+1)`, `r2 = (i+1)*(slices+1)`, two triangles. -/
def sphereQuadIdx (slices i j : ℤ) : List ℤ :=
  let r1 := i * (slices + 1)
  let r2 := (i + 1) * (slices + 1)
  [r1 + j, r2 + j, r2 + j + 1, r1 + j, r2 + j + 1, r1 + j + 1]

/-- Index list of `buildSphere`: the loop runs `i = 0..stacks-1` and
`j = 0..slices-1`. -/
def sphereIndices (stacksN slices : ℤ) : List ℤ :=
  (intRangeIncl 0 (stacksN - 1)).flatMap (fun i =>
    (intRangeIncl 0 (slices - 1)).flatMap (fun j => sphereQuadIdx slices i j))

/-- Embedding of `buildSphere(stacks, slices, r)`. -/
noncomputable def buildSphere (stacksN slices : ℤ) (r : ℝ) : MeshData :=
  ⟨sphereVertices stacksN slices r, sphereIndices stacksN slices⟩

/-- Outer-edge vertex of `buildRing` at step `i`. -/
noncomputable def ringOuterVtx (segments : ℤ) (outerR : ℝ) (i : ℤ) : Vtx :=
  let u : ℝ := (i : ℝ) / (segments : ℝ)
  let th : ℝ := u * (2 * Real.pi)
  { p := ⟨outerR * Real.cos th, 0, outerR * Real.sin th⟩
    n := ⟨0, 1, 0⟩
    uv := (u, 1) }

/-- Inner-edge vertex of `buildRing` at step `i`. -/
noncomputable def ringInnerVtx (segments : ℤ) (innerR : ℝ) (i : ℤ) : Vtx :=
  let u : ℝ := (i : ℝ) / (segments : ℝ)
  let th : ℝ := u * (2 * Real.pi)
  { p := ⟨innerR * Real.cos th, 0, innerR * Real.sin th⟩
    n := ⟨0, 1, 0⟩
    uv := (u, 0) }

/-- Vertex list of `buildRing`: the loop runs `i = 0..segments` inclusive,
pushing one outer and one inner vertex each step. -/
noncomputable def ringVertices (segments : ℤ) (innerR outerR : ℝ) : List Vtx :=
  (intRangeIncl 0 segments).flatMap (fun i =>
    [ringOuterVtx segments outerR i, ringInnerVtx segments innerR i])

/-- Index block pushed by `buildRing` when `i < segments` (`b = i*2`). -/
def ringQuadIdx (i : ℤ) : List ℤ :=
  let b := i * 2
  [b, b + 1, b + 2, b + 1, b + 3, b + 2]

/-- Index list of `buildRing`: inside the same `i = 0..segments` loop, a
six-index quad block is pushed only while `i < segments`. -/
def ringIndices (segments : ℤ) : List ℤ :=
  (intRangeIncl 0 segments).flatMap (fun i =>
    if i < segments then ringQuadIdx i else [])

/-- Embedding of `buildRing(segments, innerR, outerR)`. -/
noncomputable def buildRing (segments : ℤ) (innerR outerR : ℝ) : MeshData :=
  ⟨ringVertices segments innerR outerR, ringIndices segments⟩

/-- Point of `buildOrbitLine` at step `i`. -/
noncomputable def orbitLinePt (segments : ℤ) (r : ℝ) (i : ℤ) : Vec3 :=
  let u : ℝ := (i : ℝ) / (segments : ℝ)
  let th : ℝ := u * (2 * Real.pi)
  ⟨r * Real.cos th, 0, r * Real.sin th⟩

/-- Index list of `buildOrbitLine`: pairs `(i, (i+1) % segments)` for
`i = 0..segments-1`; C `%` on `int` is truncated division, `Int.tmod`. -/
def orbitLineIndices (segments : ℤ) : List ℤ :=
  (intRangeIncl 0 (segments - 1)).flatMap (fun i => [i, (i + 1).tmod segments])

/-- Embedding of `buildOrbitLine(segments, r)`: the point loop runs
`i = 0..segments-1`. -/
noncomputable def buildOrbitLine (segments : ℤ) (r : ℝ) : LineData :=
  ⟨(intRangeIncl 0 (segments - 1)).map (orbitLinePt segments r),
    orbitLineIndices segments⟩

theorem buildSphere_vertices_length (stacksN slices : ℤ) (r : ℝ) :
    (buildSphere stacksN slices r).vertices.length =
      (stacksN + 1).toNat * (slices + 1).toNat := by
  show (sphereVertices stacksN slices r).length = _
  unfold sphereVertices
  rw [length_flatMap_const _ _ ((slices + 1).toNat) (fun a _ => by
    rw [List.length_map, length_intRangeIncl]
    omega)]
  rw [length_intRangeIncl]
  have h : (stacksN + 1 - 0).toNat = (stacksN + 1).toNat := by omega
  rw [h, Nat.mul_comm]

theorem buildSphere_indices_length (stacksN slices : ℤ) (r : ℝ) :
    (buildSphere stacksN slices r).indices.length =
      6 * stacksN.toNat * slices.toNat := by
  show (sphereIndices stacksN slices).length = _
  unfold sphereIndices
  rw [length_flatMap_const _ _ (6 * slices.toNat) (fun a _ => by
    rw [length_flatMap_const _ _ 6 (fun b _ => by simp [sphereQuadIdx])]
    rw [length_intRangeIncl]
    omega)]
  rw [length_intRangeIncl]
  have h : (stacksN - 1 + 1 - 0).toNat = stacksN.toNat := by omega
  rw [h]
  ring

theorem buildRing_vertices_length (segments : ℤ) (innerR outerR : ℝ) :
    (buildRing segments innerR outerR).vertices.length =
      2 * (segments + 1).toNat := by
  show (ringVertices segments innerR outerR).length = _
  unfold ringVertices
  rw [length_flatMap_const _ _ 2 (fun a _ => by simp)]
  rw [length_intRangeIncl]
  omega

theorem buildRing_indices_length (segments : ℤ) (h : 0 ≤ segments) :
    (ringIndices segments).length = 6 * segments.toNat := by
  unfold ringIndices
  rw [intRangeIncl_zero_succ segments h, List.flatMap_append]
  rw [List.length_append,
    length_flatMap_const _ _ 6 (fun a ha => by
      have hb := mem_intRangeIncl ha
      rw [if_pos (by omega)]
      simp [ringQuadIdx])]
  rw [length_intRangeIncl]
  simp only [List.flatMap_cons, List.flatMap_nil, List.append_nil,
    lt_self_iff_false, if_false, List.length_nil]
  omega

theorem buildOrbitLine_points_length (segments : ℤ) (r : ℝ) :
    (buildOrbitLine segments r).points.length = segments.toNat := by
  show ((intRangeIncl 0 (segments - 1)).map (orbitLinePt segments r)).length = _
  rw [List.length_map, length_intRangeIncl]
  omega

theorem orbitLineIndices_length (segments : ℤ) :
    (orbitLineIndices segments).length = 2 * segments.toNat := by
  unfold orbitLineIndices
  rw [length_flatMap_const _ _ 2 (fun a _ => by simp)]
  rw [length_intRangeIncl]
  omega

theorem intRangeIncl_eq_nil {lo hi : ℤ} (h : hi < lo) : intRangeIncl lo hi = [] := by
  unfold intRangeIncl
  rw [show (hi + 1 - lo).toNat = 0 by omega]
  rfl

theorem orbitLineIndices_drop (segments : ℤ) (h : 1 ≤ segments) :
    (orbitLineIndices segments).drop (2 * segments.toNat - 2) =
      [segments - 1, 0] := by
  unfold orbitLineIndices
  rw [intRangeIncl_zero_succ (segments - 1) (by omega), List.flatMap_append]
  have hpre :
      ((intRangeIncl 0 (segments - 1 - 1)).flatMap
        (fun i => [i, (i + 1).tmod segments])).length = 2 * segments.toNat - 2 := by
    rw [length_flatMap_const _ _ 2 (fun a _ => by simp), length_intRangeIncl]
    omega
  have hlast :
      ([segments - 1] : List ℤ).flatMap (fun i => [i, (i + 1).tmod segments]) =
        [segments - 1, 0] := by
    simp only [List.flatMap_cons, List.flatMap_nil, List.append_nil]
    rw [show segments - 1 + 1 = segments by ring, Int.tmod_self]
  rw [hlast, ← hpre, List.drop_left]

/-- Arguments `(stacks, slices)` of every `buildSphere` call in `main.cpp`
(sun, earth, small, tiny, big, sky, uranus, neptune meshes). -/
def sphereCallSites : List (ℤ × ℤ) :=
  [(48, 96), (40, 80), (32, 64), (28, 56), (48, 96), (24, 48), (44, 88), (44, 88)]

/-- The `segments` argument of every `buildRing` call in `main.cpp`. -/
def ringCallSites : List ℤ := [256]

/-- The `segments` argument of every `buildOrbitLine` call in `main.cpp`
(the HUD circle and the eight orbit guide lines). -/
def orbitLineCallSites : List ℤ := [128, 256, 256, 256, 256, 256, 256, 256, 256]

/-- C3 counterexample: the generators do not floor or reject degenerate
counts.  `buildSphere(0, 4, r)` still generates a (degenerate) vertex
grid — one row of five vertices — instead of the ten vertices that
flooring `stacks` to 1 would produce, so no flooring (or rejection)
happens before generation. -/
theorem buildSphere_zero_stacks_not_floored :
    (buildSphere 0 4 1).vertices.length = 5 ∧
    (buildSphere 1 4 1).vertices.length = 10 ∧
    (buildSphere 0 4 1).vertices.length ≠ (buildSphere 1 4 1).vertices.length := by
  refine ⟨?_, ?_, ?_⟩ <;> simp only [buildSphere_vertices_length] <;> decide

/-- C3 amended: the generators apply no flooring or rejection — a
non-positive count flows into the generation loops unchanged (a negative
count yields empty vertex and index lists, zero stacks yields an empty
index list) — but every `buildSphere`/`buildRing`/`buildOrbitLine` call
in the program passes counts ≥ 1, so generation never actually runs with
a non-positive row/column count. -/
theorem generator_callsites_positive :
    (∀ p ∈ sphereCallSites, 1 ≤ p.1 ∧ 1 ≤ p.2) ∧
    (∀ n ∈ ringCallSites, 1 ≤ n) ∧
    (∀ n ∈ orbitLineCallSites, 1 ≤ n) ∧
    (∀ (s t : ℤ) (r : ℝ), s ≤ -1 →
      (buildSphere s t r).vertices = [] ∧ (buildSphere s t r).indices = []) ∧
    (∀ (s t : ℤ) (r : ℝ), s ≤ 0 → (buildSphere s t r).indices = []) := by
  refine ⟨by decide, by decide, by decide, ?_, ?_⟩
  · intro s t r hs
    constructor
    · show sphereVertices s t r = []
      unfold sphereVertices
      rw [intRangeIncl_eq_nil (by omega)]
      rfl
    · show sphereIndices s t = []
      unfold sphereIndices
      rw [intRangeIncl_eq_nil (by omega)]
      rfl
  · intro s t r hs
    show sphereIndices s t = []
    unfold sphereIndices
    rw [intRangeIncl_eq_nil (by omega)]
    rfl

/-- Witness for `generator_callsites_positive` at concrete inputs. -/
theorem generator_callsites_positive_witness :
    (1 ≤ (48 : ℤ)) ∧ (buildSphere (-1) 4 1).indices = [] :=
  ⟨(generator_callsites_positive.1 (48, 96) (by decide)).1,
    (generator_callsites_positive.2.2.2.1 (-1) 4 1 (by norm_num)).2⟩

/-- C4: for stacks ≥ 1 and slices ≥ 1, `buildSphere` produces exactly
`(stacks+1)(slices+1)` vertices and `6·stacks·slices` triangle indices. -/
theorem buildSphere_counts_spec (stacksN slices : ℤ) (r : ℝ)
    (hs : 1 ≤ stacksN) (ht : 1 ≤ slices) :
    ((buildSphere stacksN slices r).vertices.length : ℤ) =
      (stacksN + 1) * (slices + 1) ∧
    ((buildSphere stacksN slices r).indices.length : ℤ) =
      6 * stacksN * slices := by
  have h1 : (((stacksN + 1).toNat : ℤ)) = stacksN + 1 := by omega
  have h2 : (((slices + 1).toNat : ℤ)) = slices + 1 := by omega
  have h3 : ((stacksN.toNat : ℤ)) = stacksN := by omega
  have h4 : ((slices.toNat : ℤ)) = slices := by omega
  constructor
  · rw [buildSphere_vertices_length, Nat.cast_mul, h1, h2]
  · rw [buildSphere_indices_length, Nat.cast_mul, Nat.cast_mul, h3, h4]
    push_cast
    ring

/-- Witness for `buildSphere_counts_spec` at the sun-mesh call site. -/
theorem buildSphere_counts_spec_witness :
    (1 ≤ (48 : ℤ)) ∧ (1 ≤ (96 : ℤ)) ∧
    ((buildSphere 48 96 1).vertices.length : ℤ) = (48 + 1) * (96 + 1) ∧
    ((buildSphere 48 96 1).indices.length : ℤ) = 6 * 48 * 96 :=
  ⟨by norm_num, by norm_num,
    (buildSphere_counts_spec 48 96 1 (by norm_num) (by norm_num)).1,
    (buildSphere_counts_spec 48 96 1 (by norm_num) (by norm_num)).2⟩

/-- C5: for segments ≥ 1, `buildRing` produces `2(n+1)` vertices and `6n`
indices, and `buildOrbitLine` produces `n` points and `2n` line indices
whose final pair wraps from the last point back to index 0. -/
theorem buildRing_buildOrbitLine_counts_spec (n : ℤ) (ir orr r : ℝ)
    (h : 1 ≤ n) :
    ((buildRing n ir orr).vertices.length : ℤ) = 2 * (n + 1) ∧
    ((buildRing n ir orr).indices.length : ℤ) = 6 * n ∧
    ((buildOrbitLine n r).points.length : ℤ) = n ∧
    ((buildOrbitLine n r).indices.length : ℤ) = 2 * n ∧
    (buildOrbitLine n r).indices.drop (2 * n.toNat - 2) = [n - 1, 0] := by
  have h1 : (((n + 1).toNat : ℤ)) = n + 1 := by omega
  have h2 : ((n.toNat : ℤ)) = n := by omega
  refine ⟨?_, ?_, ?_, ?_, ?_⟩
  · rw [buildRing_vertices_length, Nat.cast_mul, h1]
    norm_num
  · show ((ringIndices n).length : ℤ) = 6 * n
    rw [buildRing_indices_length n (by omega), Nat.cast_mul, h2]
    norm_num
  · rw [buildOrbitLine_points_length, h2]
  · show ((orbitLineIndices n).length : ℤ) = 2 * n
    rw [orbitLineIndices_length, Nat.cast_mul, h2]
    norm_num
  · show (orbitLineIndices n).drop (2 * n.toNat - 2) = [n - 1, 0]
    exact orbitLineIndices_drop n h

/-- Witness for `buildRing_buildOrbitLine_counts_spec` at the Saturn-ring
and orbit-guide call sites (`segments = 256`). -/
theorem buildRing_buildOrbitLine_counts_spec_witness :
    (1 ≤ (256 : ℤ)) ∧
    ((buildRing 256 1.8 3.2).vertices.length : ℤ) = 2 * (256 + 1) ∧
    (buildOrbitLine 256 6).indices.drop (2 * (256 : ℤ).toNat - 2) = [256 - 1, 0] :=
  ⟨by norm_num,
    (buildRing_buildOrbitLine_counts_spec 256 1.8 3.2 6 (by norm_num)).1,
    (buildRing_buildOrbitLine_counts_spec 256 1.8 3.2 6 (by norm_num)).2.2.2.2⟩

/-- Embedding of `glm::rotate(M, θ, vec3(0,1,0))` acting on a point:
`x' = cosθ·x + sinθ·z`, `y' = y`, `z' = -sinθ·x + cosθ·z` (glm builds the
rotation as `cos θ · I + sin θ · K + (1−cos θ) · a·aᵀ` for axis `a`). -/
noncomputable def rotY (θ : ℝ) (v : Vec3) : Vec3 :=
  ⟨Real.cos θ * v.x + Real.sin θ * v.z, v.y,
    -Real.sin θ * v.x + Real.cos θ * v.z⟩

/-- Embedding of `glm::translate(M, vec3(d,0,0))` acting on a point. -/
noncomputable def translateX (d : ℝ) (v : Vec3) : Vec3 := ⟨v.x + d, v.y, v.z⟩

/-- Origin of model space; a model matrix applied to it gives the body's
world position. -/
def origin : Vec3 := ⟨0, 0, 0⟩

/-- Model transform built by `drawPlanet` applied to a point:
`T = rotate(orbitAngle) · translate(orbitRadius,0,0) · rotate(spinAngle)`
(matrices act right-to-left on points). -/
noncomputable def planetModelPoint (orbitAngleDeg orbitRadius spinAngleDeg : ℝ)
    (p : Vec3) : Vec3 :=
  rotY (radians orbitAngleDeg)
    (translateX orbitRadius (rotY (radians spinAngleDeg) p))

/-- Model transform built for the moon (lines 585-589 of `main.cpp`)
applied to a point: starting from the parent's orbit rotate+translate,
then the moon's own orbit rotate+translate, then the moon's spin. -/
noncomputable def moonModelPoint
    (parentOrbitDeg parentRadius moonOrbitDeg moonRadius moonSpinDeg : ℝ)
    (p : Vec3) : Vec3 :=
  rotY (radians parentOrbitDeg)
    (translateX parentRadius
      (rotY (radians moonOrbitDeg)
        (translateX moonRadius
          (rotY (radians moonSpinDeg) p))))

/-- Commuted alternative to `moonModelPoint`: translate before rotate at
each level of the hierarchy. -/
noncomputable def moonModelPointCommuted
    (parentOrbitDeg parentRadius moonOrbitDeg moonRadius moonSpinDeg : ℝ)
    (p : Vec3) : Vec3 :=
  translateX parentRadius
    (rotY (radians parentOrbitDeg)
      (translateX moonRadius
        (rotY (radians moonOrbitDeg)
          (rotY (radians moonSpinDeg) p))))

/-- Modelled from the spec: the §8 scenario's stated convention places a
body with orbit radius `r` and orbit angle `θ` at `(r·cosθ, 0, r·sinθ)`,
so that at 90° the parent's orbit point is `(0,0,12)`. -/
noncomputable def specOrbitPoint (r θdeg : ℝ) : Vec3 :=
  ⟨r * Real.cos (radians θdeg), 0, r * Real.sin (radians θdeg)⟩

/-- Modelled from the spec: the y-axis rotation consistent with the §8
convention, taking `(r,0,0)` to `(r·cosθ, 0, r·sinθ)`. -/
noncomputable def specRotY (θ : ℝ) (v : Vec3) : Vec3 :=
  ⟨Real.cos θ * v.x - Real.sin θ * v.z, v.y,
    Real.sin θ * v.x + Real.cos θ * v.z⟩

theorem radians_ninety : radians 90 = Real.pi / 2 := by
  unfold radians; ring

theorem radians_zero : radians 0 = 0 := by
  unfold radians; ring

theorem cos_radians_ninety : Real.cos (radians 90) = 0 := by
  rw [radians_ninety, Real.cos_pi_div_two]

theorem sin_radians_ninety : Real.sin (radians 90) = 1 := by
  rw [radians_ninety, Real.sin_pi_div_two]

/-- C1 counterexample: with glm's y-rotation convention the parent body
(orbitRadius 12, orbitAngle 90°) sits at `(0,0,-12)` and the moon
(orbitRadius 2, orbitAngle 0°) at `(0,0,-14)`, so the moon's world
position does not equal the spec's claimed `(0,0,12)` parent orbit point
plus the rotated `(2,0,0)` offset — under either sign convention for the
rotated offset. -/
theorem moon_position_counterexample :
    moonModelPoint 90 12 0 2 0 origin = ⟨0, 0, -14⟩ ∧
    moonModelPoint 90 12 0 2 0 origin ≠
      specOrbitPoint 12 90 + specRotY (radians 90) ⟨2, 0, 0⟩ ∧
    moonModelPoint 90 12 0 2 0 origin ≠
      specOrbitPoint 12 90 + rotY (radians 90) ⟨2, 0, 0⟩ := by
  have h1 : moonModelPoint 90 12 0 2 0 origin = ⟨0, 0, -14⟩ := by
    unfold moonModelPoint rotY translateX origin
    rw [radians_zero]
    simp [cos_radians_ninety, sin_radians_ninety]
    norm_num
  refine ⟨h1, ?_, ?_⟩
  · rw [h1]
    unfold specOrbitPoint specRotY
    simp [cos_radians_ninety, sin_radians_ninety, Vec3.mk.injEq]
    norm_num
  · rw [h1]
    unfold specOrbitPoint rotY
    simp [cos_radians_ninety, sin_radians_ninety, Vec3.mk.injEq]
    norm_num

/-- C1 amended: with glm's y-rotation convention (`z' = -x·sinθ + z·cosθ`)
the parent's orbit point is `(0,0,-12)` and the moon's world position is
that point plus the moon's zero-angle offset `(2,0,0)` rotated by the
parent's orientation, namely `(0,0,-14)`; the transform is composed in
the §4.2 order (parent orbit rotate then translate, then the moon's own
orbit rotate+translate, then spin), and the commuted translate-first
alternative yields a different world position. -/
theorem moon_position_amended (moonSpin parentSpin : ℝ) :
    moonModelPoint 90 12 0 2 moonSpin origin =
      planetModelPoint 90 12 parentSpin origin +
        rotY (radians 90) (rotY (radians 0) ⟨2, 0, 0⟩) ∧
    planetModelPoint 90 12 parentSpin origin = ⟨0, 0, -12⟩ ∧
    moonModelPoint 90 12 0 2 moonSpin origin = ⟨0, 0, -14⟩ ∧
    moonModelPointCommuted 90 12 0 2 moonSpin origin ≠
      moonModelPoint 90 12 0 2 moonSpin origin := by
  have hparent : planetModelPoint 90 12 parentSpin origin = ⟨0, 0, -12⟩ := by
    unfold planetModelPoint rotY translateX origin
    simp [cos_radians_ninety, sin_radians_ninety]
  have hmoon : moonModelPoint 90 12 0 2 moonSpin origin = ⟨0, 0, -14⟩ := by
    unfold moonModelPoint rotY translateX origin
    rw [radians_zero]
    simp [cos_radians_ninety, sin_radians_ninety]
    norm_num
  refine ⟨?_, hparent, hmoon, ?_⟩
  · rw [hmoon, hparent]
    unfold rotY
    rw [radians_zero]
    simp [cos_radians_ninety, sin_radians_ninety]
    norm_num
  · rw [hmoon]
    unfold moonModelPointCommuted rotY translateX origin
    rw [radians_zero]
    simp [cos_radians_ninety, sin_radians_ninety, Vec3.mk.injEq]

/-- Motion parameters and mutable angular state of a body, the C++
`struct Planet` without the GPU handles. -/
@[ext] structure Planet where
  orbitRadius : ℝ
  orbitSpeed : ℝ
  spinSpeed : ℝ
  orbitAngle : ℝ
  spinAngle : ℝ

/-- Per-frame update of one body in the animate block:
`orbitAngle += orbitSpeed * adv; spinAngle += spinSpeed * adv`. -/
def animatePlanet (adv : ℝ) (p : Planet) : Planet :=
  { p with
    orbitAngle := p.orbitAngle + p.orbitSpeed * adv
    spinAngle := p.spinAngle + p.spinSpeed * adv }

/-- Per-frame update of the sun: the animate block only advances its spin
(`sun.spinAngle += sun.spinSpeed * adv`). -/
def animateSunOnly (adv : ℝ) (p : Planet) : Planet :=
  { p with spinAngle := p.spinAngle + p.spinSpeed * adv }

/-- The eleven bodies animated by the frame loop. -/
@[ext] structure SolarBodies where
  sun : Planet
  mercury : Planet
  venus : Planet
  earth : Planet
  moon : Planet
  mars : Planet
  jupiter : Planet
  saturn : Planet
  uranus : Planet
  neptune : Planet
  europa : Planet

/-- The single advance value of line 460:
`float adv = paused ? 0.0f : (dt * timeScale);`. -/
def advanceValue (paused : Bool) (dt timeScale : ℝ) : ℝ :=
  if paused then 0 else dt * timeScale

/-- The animate block (lines 463-473) applied with a given advance. -/
def applyAdvance (adv : ℝ) (s : SolarBodies) : SolarBodies where
  sun := animateSunOnly adv s.sun
  mercury := animatePlanet adv s.mercury
  venus := animatePlanet adv s.venus
  earth := animatePlanet adv s.earth
  moon := animatePlanet adv s.moon
  mars := animatePlanet adv s.mars
  jupiter := animatePlanet adv s.jupiter
  saturn := animatePlanet adv s.saturn
  uranus := animatePlanet adv s.uranus
  neptune := animatePlanet adv s.neptune
  europa := animatePlanet adv s.europa

/-- One frame of simulation advance: compute `adv`, then animate. -/
def frameAnimate (paused : Bool) (dt timeScale : ℝ) (s : SolarBodies) :
    SolarBodies :=
  applyAdvance (advanceValue paused dt timeScale) s

/-- Construction-time configuration of the bodies
(`Planet sun{mesh, tex, orbitRadius, orbitSpeed, spinSpeed}`, angles 0). -/
def initBodies : SolarBodies where
  sun := ⟨0, 0, 10, 0, 0⟩
  mercury := ⟨6, 48, 6, 0, 0⟩
  venus := ⟨9, 35, -2, 0, 0⟩
  earth := ⟨12, 30, 50, 0, 0⟩
  moon := ⟨2, 80, 20, 0, 0⟩
  mars := ⟨15, 24, 40, 0, 0⟩
  jupiter := ⟨20, 13, 80, 0, 0⟩
  saturn := ⟨26, 10, 70, 0, 0⟩
  uranus := ⟨32, 7, 50, 0, 0⟩
  neptune := ⟨38, 5, 40, 0, 0⟩
  europa := ⟨3, 90, 15, 0, 0⟩

/-- Both angles of `q` are those of `p` advanced by `adv` at `p`'s
speeds. -/
def planetAdvancedBy (adv : ℝ) (p q : Planet) : Prop :=
  q.orbitAngle = p.orbitAngle + p.orbitSpeed * adv ∧
  q.spinAngle = p.spinAngle + p.spinSpeed * adv

/-- C2: for any body state and any `dt ≥ 0`, a paused frame leaves every
orbit and spin angle unchanged; a non-paused frame adds
`speed · dt · timeScale` to each angle (for the sun, whose construction
sets `orbitSpeed = 0`, the untouched orbit angle agrees with the
formula); and the frame update factors through the single advance value,
which is the only channel from time to the angles. -/
theorem frame_advance_spec (s : SolarBodies) (dt timeScale : ℝ)
    (hdt : 0 ≤ dt) (hsun : s.sun.orbitSpeed = 0) :
    frameAnimate true dt timeScale s = s ∧
    (planetAdvancedBy (dt * timeScale) s.sun (frameAnimate false dt timeScale s).sun ∧
      planetAdvancedBy (dt * timeScale) s.mercury (frameAnimate false dt timeScale s).mercury ∧
      planetAdvancedBy (dt * timeScale) s.venus (frameAnimate false dt timeScale s).venus ∧
      planetAdvancedBy (dt * timeScale) s.earth (frameAnimate false dt timeScale s).earth ∧
      planetAdvancedBy (dt * timeScale) s.moon (frameAnimate false dt timeScale s).moon ∧
      planetAdvancedBy (dt * timeScale) s.mars (frameAnimate false dt timeScale s).mars ∧
      planetAdvancedBy (dt * timeScale) s.jupiter (frameAnimate false dt timeScale s).jupiter ∧
      planetAdvancedBy (dt * timeScale) s.saturn (frameAnimate false dt timeScale s).saturn ∧
      planetAdvancedBy (dt * timeScale) s.uranus (frameAnimate false dt timeScale s).uranus ∧
      planetAdvancedBy (dt * timeScale) s.neptune (frameAnimate false dt timeScale s).neptune ∧
      planetAdvancedBy (dt * timeScale) s.europa (frameAnimate false dt timeScale s).europa) ∧
    (∀ b : Bool, frameAnimate b dt timeScale s =
      applyAdvance (advanceValue b dt timeScale) s) := by
  refine ⟨?_, ?_, fun b => rfl⟩
  · ext <;>
      simp [frameAnimate, applyAdvance, animatePlanet, animateSunOnly,
        advanceValue]
  · refine ⟨⟨?_, ?_⟩, ?_⟩ <;>
      simp [frameAnimate, applyAdvance, animatePlanet, animateSunOnly,
        advanceValue, planetAdvancedBy, hsun]

/-- Witness for `frame_advance_spec` at the construction-time state. -/
theorem frame_advance_spec_witness :
    (0 ≤ (1 : ℝ)) ∧ initBodies.sun.orbitSpeed = 0 ∧
      frameAnimate true 1 1 initBodies = initBodies :=
  ⟨zero_le_one, rfl, (frame_advance_spec initBodies 1 1 zero_le_one rfl).1⟩

/-- The `N` key handler: `focusIndex = (focusIndex + 1) % 9`; C `%` on
`int` is truncated division, `Int.tmod`. -/
def nextFocus (i : ℤ) : ℤ := (i + 1).tmod 9

/-- The `P` key handler: `focusIndex = (focusIndex + 8) % 9`. -/
def prevFocus (i : ℤ) : ℤ := (i + 8).tmod 9

/-- C6: from any in-range focus index (the values the 9-body wrap-around
state can hold), applying `next` nine times returns to the original
index, and `prev` followed by `next` is the identity. -/
theorem focus_cycle_identity_spec (i : ℤ) (h0 : 0 ≤ i) (h9 : i < 9) :
    nextFocus^[9] i = i ∧ nextFocus (prevFocus i) = i := by
  interval_cases i <;> exact ⟨by decide, by decide⟩

/-- Witness for `focus_cycle_identity_spec` at index 4. -/
theorem focus_cycle_identity_spec_witness :
    (0 ≤ (4 : ℤ)) ∧ (4 : ℤ) < 9 ∧ nextFocus^[9] 4 = 4 :=
  ⟨by decide, by decide, (focus_cycle_identity_spec 4 (by decide) (by decide)).1⟩

/-- Focus-cycle commands delivered by the key callback. -/
inductive FocusCmd where
  | next
  | prev

/-- Apply one focus-cycle command to the focus index. -/
def applyFocusCmd (i : ℤ) : FocusCmd → ℤ
  | FocusCmd.next => nextFocus i
  | FocusCmd.prev => prevFocus i

/-- Run a sequence of focus-cycle commands from the initial
`focusIndex = 0`. -/
def runFocusCmds (cmds : List FocusCmd) : ℤ :=
  cmds.foldl applyFocusCmd 0

/-- The focus lookup index of line 482:
`arr[std::max(0, std::min(8, focusIndex))]`. -/
def focusLookupIndex (i : ℤ) : ℤ := max 0 (min 8 i)

theorem nextFocus_bounds {i : ℤ} (h : 0 ≤ i) :
    0 ≤ nextFocus i ∧ nextFocus i < 9 := by
  unfold nextFocus
  rw [Int.tmod_eq_emod (by omega) (by norm_num)]
  omega

theorem prevFocus_bounds {i : ℤ} (h : 0 ≤ i) :
    0 ≤ prevFocus i ∧ prevFocus i < 9 := by
  unfold prevFocus
  rw [Int.tmod_eq_emod (by omega) (by norm_num)]
  omega

theorem foldl_applyFocusCmd_bounds (cmds : List FocusCmd) (i : ℤ)
    (h0 : 0 ≤ i) (h9 : i < 9) :
    0 ≤ cmds.foldl applyFocusCmd i ∧ cmds.foldl applyFocusCmd i < 9 := by
  induction cmds generalizing i with
  | nil => exact ⟨h0, h9⟩
  | cons c cmds ih =>
      rw [List.foldl_cons]
      cases c
      · exact ih _ (nextFocus_bounds h0).1 (nextFocus_bounds h0).2
      · exact ih _ (prevFocus_bounds h0).1 (prevFocus_bounds h0).2

/-- C7: after any sequence of focus-cycle commands (from the initial
index 0) the focus index lies in `[0, 9)`, it wraps modulo the body-list
length 9 in both directions, and the body lookup's clamped index is the
focus index itself — never out of the 9-element array's bounds. -/
theorem focus_index_in_bounds_spec (cmds : List FocusCmd) :
    (0 ≤ runFocusCmds cmds ∧ runFocusCmds cmds < 9) ∧
    focusLookupIndex (runFocusCmds cmds) = runFocusCmds cmds ∧
    (0 ≤ focusLookupIndex (runFocusCmds cmds) ∧
      focusLookupIndex (runFocusCmds cmds) < 9) ∧
    runFocusCmds (cmds ++ [FocusCmd.next]) = (runFocusCmds cmds + 1) % 9 ∧
    runFocusCmds (cmds ++ [FocusCmd.prev]) = (runFocusCmds cmds - 1) % 9 := by
  obtain ⟨hb0, hb9⟩ := foldl_applyFocusCmd_bounds cmds 0 (by norm_num) (by norm_num)
  have hrun : (0 ≤ runFocusCmds cmds ∧ runFocusCmds cmds < 9) := ⟨hb0, hb9⟩
  have hnext : runFocusCmds (cmds ++ [FocusCmd.next]) =
      nextFocus (runFocusCmds cmds) := by
    unfold runFocusCmds
    rw [List.foldl_append]
    rfl
  have hprev : runFocusCmds (cmds ++ [FocusCmd.prev]) =
      prevFocus (runFocusCmds cmds) := by
    unfold runFocusCmds
    rw [List.foldl_append]
    rfl
  refine ⟨hrun, ?_, ?_, ?_, ?_⟩
  · unfold focusLookupIndex
    omega
  · unfold focusLookupIndex
    omega
  · rw [hnext]
    unfold nextFocus
    rw [Int.tmod_eq_emod (by omega) (by norm_num)]
  · rw [hprev]
    unfold prevFocus
    rw [Int.tmod_eq_emod (by omega) (by norm_num)]
    omega

/-- The camera-mode enum `CamMode { ORBIT, FREE, FOCUS }`. -/
inductive CamMode where
  | orbit
  | free
  | focus
  deriving DecidableEq

/-- The free-standing camera/input globals of `main.cpp` that the input
callbacks and the frame loop mutate. -/
structure CamGlobals where
  camMode : CamMode
  camDist : ℝ
  focusDist : ℝ
  fovDeg : ℝ
  camYaw : ℝ
  camPitch : ℝ
  freeYaw : ℝ
  freePitch : ℝ
  rmbDown : Bool

/-- Initial values of the globals (`camMode = ORBIT`, `camDist = 45`,
`focusDist = 12`, `fovDeg = 45`, `camYaw = 0°`, `camPitch = 15°`). -/
noncomputable def initCamGlobals : CamGlobals where
  camMode := CamMode.orbit
  camDist := 45
  focusDist := 12
  fovDeg := 45
  camYaw := radians 0
  camPitch := radians 15
  freeYaw := 0
  freePitch := 0
  rmbDown := false

/-- Discrete inputs that touch the camera distances: mode-select keys
1/2/3, a scroll of `yoff`, the Z/X focus-distance keys, and the
unconditional per-frame clamp of lines 505-506. -/
inductive CamEvent where
  | key1
  | key2
  | key3
  | scroll (yoff : ℝ)
  | keyZ
  | keyX
  | frameClamp

/-- Effect of one camera event on the globals, following `key_cb`,
`scroll_cb` and the per-frame clamp. -/
noncomputable def applyCamEvent (s : CamGlobals) : CamEvent → CamGlobals
  | CamEvent.key1 => { s with camMode := CamMode.orbit }
  | CamEvent.key2 => { s with camMode := CamMode.free }
  | CamEvent.key3 => { s with camMode := CamMode.focus }
  | CamEvent.scroll yoff =>
      match s.camMode with
      | CamMode.free => { s with fovDeg := clampR (s.fovDeg - yoff) 20 90 }
      | CamMode.focus =>
          { s with focusDist := clampR (s.focusDist - yoff * 2) 3 400 }
      | CamMode.orbit =>
          { s with camDist := clampR (s.camDist - yoff * 2) 5 400 }
  | CamEvent.keyZ =>
      if s.camMode = CamMode.focus then
        { s with focusDist := max 3 (s.focusDist - 2) }
      else s
  | CamEvent.keyX =>
      if s.camMode = CamMode.focus then
        { s with focusDist := min 400 (s.focusDist + 2) }
      else s
  | CamEvent.frameClamp =>
      { s with camPitch := clampR s.camPitch (radians (-89)) (radians 89),
               camDist := clampR s.camDist 5 400 }

/-- Run a sequence of camera events from the initial globals. -/
noncomputable def runCamEvents (evs : List CamEvent) : CamGlobals :=
  evs.foldl applyCamEvent initCamGlobals

/-- Both camera distances are inside their clamped ranges. -/
def distInvariant (s : CamGlobals) : Prop :=
  5 ≤ s.camDist ∧ s.camDist ≤ 400 ∧ 3 ≤ s.focusDist ∧ s.focusDist ≤ 400

theorem clampR_bounds (x lo hi : ℝ) (h : lo ≤ hi) :
    lo ≤ clampR x lo hi ∧ clampR x lo hi ≤ hi := by
  unfold clampR
  exact ⟨le_min (le_max_right x lo) h, min_le_right _ _⟩

theorem applyCamEvent_distInvariant (s : CamGlobals) (e : CamEvent)
    (h : distInvariant s) : distInvariant (applyCamEvent s e) := by
  obtain ⟨mode, cd, fd, fov, cy, cp, fy, fp, rmb⟩ := s
  obtain ⟨h1, h2, h3, h4⟩ := h
  cases e <;> cases mode <;>
    simp only [applyCamEvent, distInvariant] at * <;>
    refine ⟨?_, ?_, ?_, ?_⟩ <;>
    first
      | assumption
      | exact (clampR_bounds _ _ _ (by norm_num)).1
      | exact (clampR_bounds _ _ _ (by norm_num)).2
      | exact le_max_left _ _
      | exact max_le (by norm_num) (by linarith)
      | exact le_min (by norm_num) (by linarith)
      | exact min_le_left _ _

theorem foldl_applyCamEvent_distInvariant (evs : List CamEvent)
    (s : CamGlobals) (h : distInvariant s) :
    distInvariant (evs.foldl applyCamEvent s) := by
  induction evs generalizing s with
  | nil => exact h
  | cons e evs ih =>
      rw [List.foldl_cons]
      exact ih _ (applyCamEvent_distInvariant s e h)

/-- C8: starting from the in-range initial values (45 and 12), after any
sequence of mode switches, scroll inputs of any magnitude or sign, Z/X
presses and per-frame clamps, the Orbit-mode distance stays within
`[5, 400]` and the Focus-mode distance within `[3, 400]`. -/
theorem camera_distance_invariant_spec (evs : List CamEvent) :
    5 ≤ (runCamEvents evs).camDist ∧ (runCamEvents evs).camDist ≤ 400 ∧
    3 ≤ (runCamEvents evs).focusDist ∧ (runCamEvents evs).focusDist ≤ 400 := by
  have hinit : distInvariant initCamGlobals := by
    unfold distInvariant initCamGlobals
    norm_num
  exact foldl_applyCamEvent_distInvariant evs initCamGlobals hinit

/-- Held movement keys sampled by the FREE-camera branch
(`W/S/A/D/Q/E`). -/
structure MoveKeys where
  w : Bool
  s : Bool
  a : Bool
  d : Bool
  q : Bool
  e : Bool

/-- Forward vector of the FREE camera:
`fwd = (sin freeYaw, 0, -cos freeYaw)`. -/
noncomputable def freeFwd (yaw : ℝ) : Vec3 :=
  ⟨Real.sin yaw, 0, -Real.cos yaw⟩

/-- Right vector of the FREE camera:
`right = normalize(cross(fwd, (0,1,0)))`. -/
noncomputable def freeRight (yaw : ℝ) : Vec3 :=
  normalize (cross (freeFwd yaw) ⟨0, 1, 0⟩)

/-- Position update of the FREE-camera branch (lines 491-500): the move
speed is 25 while the right mouse button is held and 8 otherwise, scaled
by `dt`; W/S move along `fwd`, A/D along `right`, Q/E along world up. -/
noncomputable def freeMoveStep (rmb : Bool) (dt yaw : ℝ) (keys : MoveKeys)
    (pos : Vec3) : Vec3 :=
  let move : ℝ := (if rmb then 25 else 8) * dt
  let fwd := freeFwd yaw
  let right := freeRight yaw
  let p1 := if keys.w then pos + move • fwd else pos
  let p2 := if keys.s then p1 - move • fwd else p1
  let p3 := if keys.a then p2 - move • right else p2
  let p4 := if keys.d then p3 + move • right else p3
  let p5 := if keys.q then { p4 with y := p4.y + move } else p4
  let p6 := if keys.e then { p5 with y := p5.y - move } else p5
  p6

/-- Numeric indicator of a held key. -/
def boolToReal (b : Bool) : ℝ := if b then 1 else 0

/-- Net movement direction for a set of held keys: a combination of the
forward/right/up basis vectors of the FREE camera. -/
noncomputable def moveCombo (keys : MoveKeys) (yaw : ℝ) : Vec3 :=
  (boolToReal keys.w - boolToReal keys.s) • freeFwd yaw +
    (boolToReal keys.d - boolToReal keys.a) • freeRight yaw +
    (boolToReal keys.q - boolToReal keys.e) • (⟨0, 1, 0⟩ : Vec3)

theorem bool_if_add (b : Bool) (u v : Vec3) :
    (if b then u + v else u) = u + boolToReal b • v := by
  cases b <;> apply Vec3.ext <;> simp [boolToReal]

theorem bool_if_sub (b : Bool) (u v : Vec3) :
    (if b then u - v else u) = u - boolToReal b • v := by
  cases b <;> apply Vec3.ext <;> simp [boolToReal]

theorem bool_if_addY (b : Bool) (u : Vec3) (m : ℝ) :
    (if b then { u with y := u.y + m } else u) =
      u + (boolToReal b * m) • (⟨0, 1, 0⟩ : Vec3) := by
  cases b <;> apply Vec3.ext <;> simp [boolToReal]

theorem bool_if_subY (b : Bool) (u : Vec3) (m : ℝ) :
    (if b then { u with y := u.y - m } else u) =
      u - (boolToReal b * m) • (⟨0, 1, 0⟩ : Vec3) := by
  cases b <;> apply Vec3.ext <;> simp [boolToReal]

theorem freeMoveStep_decomp (rmb : Bool) (dt yaw : ℝ) (keys : MoveKeys)
    (pos : Vec3) :
    freeMoveStep rmb dt yaw keys pos =
      pos + ((if rmb then (25 : ℝ) else 8) * dt) • moveCombo keys yaw := by
  simp only [freeMoveStep, bool_if_add, bool_if_sub, bool_if_addY,
    bool_if_subY]
  apply Vec3.ext <;>
    simp only [moveCombo, Vec3.add_def, Vec3.sub_def, Vec3.smul_def] <;> ring

theorem freeRight_eval (yaw : ℝ) :
    freeRight yaw = ⟨Real.cos yaw, 0, Real.sin yaw⟩ := by
  unfold freeRight freeFwd cross normalize dot
  have h1 : Real.sin yaw * 0 - 0 * 1 = 0 := by ring
  have hd : (0 * 0 - -Real.cos yaw * 1) * (0 * 0 - -Real.cos yaw * 1) +
      (-Real.cos yaw * 0 - Real.sin yaw * 0) * (-Real.cos yaw * 0 - Real.sin yaw * 0) +
      (Real.sin yaw * 1 - 0 * 0) * (Real.sin yaw * 1 - 0 * 0) = 1 := by
    have hpyth := Real.sin_sq_add_cos_sq yaw
    nlinarith [hpyth]
  rw [hd, Real.sqrt_one]
  apply Vec3.ext <;> simp

/-- C9: in FREE mode a frame's key-driven translation is `pos` plus the
single move speed — 25 with the look-drag button held, 8 without, times
`dt` — times a combination of the forward/right/up basis vectors derived
from the camera orientation (the basis uses the yaw only: forward and
right are horizontal and up is world up); the drag-held displacement is
exactly `25/8` times the released displacement, and `8 < 25`. -/
theorem free_move_speed_spec (rmb : Bool) (dt yaw : ℝ) (keys : MoveKeys)
    (pos : Vec3) :
    freeMoveStep rmb dt yaw keys pos =
      pos + ((if rmb then (25 : ℝ) else 8) * dt) • moveCombo keys yaw ∧
    freeRight yaw = ⟨Real.cos yaw, 0, Real.sin yaw⟩ ∧
    freeMoveStep true dt yaw keys pos - pos =
      ((25 : ℝ) / 8) • (freeMoveStep false dt yaw keys pos - pos) ∧
    (8 : ℝ) < 25 := by
  refine ⟨freeMoveStep_decomp rmb dt yaw keys pos, freeRight_eval yaw, ?_,
    by norm_num⟩
  rw [freeMoveStep_decomp true dt yaw keys pos,
    freeMoveStep_decomp false dt yaw keys pos]
  apply Vec3.ext <;> simp <;> ring

/-- Effect of a mouse-move of `(dx, dy)` on the globals (`cursor_cb`):
ignored unless the right button is held; in ORBIT and FOCUS modes it
updates the shared `camYaw`/`camPitch` pair (pitch clamped to ±89°), in
FREE mode the separate `freeYaw`/`freePitch` pair (±85°). -/
noncomputable def cursorMove (s : CamGlobals) (dx dy : ℝ) : CamGlobals :=
  if s.rmbDown = false then s
  else if s.camMode ≠ CamMode.free then
    { s with camYaw := s.camYaw + dx * 0.005,
             camPitch := clampR (s.camPitch - dy * 0.005)
               (radians (-89)) (radians 89) }
  else
    { s with freeYaw := s.freeYaw + dx * 0.002,
             freePitch := clampR (s.freePitch - dy * 0.002)
               (radians (-85)) (radians 85) }

/-- Eye position of the ORBIT camera (`orbitCamPos`): spherical position
at (`camYaw`, `camPitch`, `camDist`). -/
noncomputable def orbitCamPos (s : CamGlobals) : Vec3 :=
  ⟨s.camDist * Real.cos s.camPitch * Real.sin s.camYaw,
    s.camDist * Real.sin s.camPitch,
    s.camDist * Real.cos s.camPitch * Real.cos s.camYaw⟩

/-- Eye offset of the FOCUS camera (lines 487-488): spherical offset at
(`camYaw`, `camPitch`, `focusDist`), added to the focused body's
position. -/
noncomputable def focusEyeOffset (s : CamGlobals) : Vec3 :=
  ⟨s.focusDist * Real.cos s.camPitch * Real.sin s.camYaw,
    s.focusDist * Real.sin s.camPitch,
    s.focusDist * Real.cos s.camPitch * Real.cos s.camYaw⟩

/-- Unit spherical direction shared by the two camera constructions. -/
noncomputable def sphericalDir (yaw pitch : ℝ) : Vec3 :=
  ⟨Real.cos pitch * Real.sin yaw, Real.sin pitch,
    Real.cos pitch * Real.cos yaw⟩

/-- C10: Orbit and Focus mode share one yaw/pitch state: a drag applied
while the mode is FOCUS produces exactly the `camYaw`/`camPitch` a drag
in ORBIT mode would produce (same fields, same update), and both modes'
eye constructions read that same pair — each is its own distance times
the identical spherical direction built from `camYaw`/`camPitch`. -/
theorem shared_yaw_pitch_spec (s : CamGlobals) (dx dy : ℝ) :
    (cursorMove { s with camMode := CamMode.focus } dx dy).camYaw =
      (cursorMove { s with camMode := CamMode.orbit } dx dy).camYaw ∧
    (cursorMove { s with camMode := CamMode.focus } dx dy).camPitch =
      (cursorMove { s with camMode := CamMode.orbit } dx dy).camPitch ∧
    orbitCamPos s = s.camDist • sphericalDir s.camYaw s.camPitch ∧
    focusEyeOffset s = s.focusDist • sphericalDir s.camYaw s.camPitch := by
  refine ⟨?_, ?_, ?_, ?_⟩
  · cases hr : s.rmbDown <;> simp [cursorMove, hr]
  · cases hr : s.rmbDown <;> simp [cursorMove, hr]
  · apply Vec3.ext <;> simp [orbitCamPos, sphericalDir] <;> ring
  · apply Vec3.ext <;> simp [focusEyeOffset, sphericalDir] <;> ring

/-- Witness for `focus_index_in_bounds_spec` on a concrete command list. -/
theorem focus_index_in_bounds_spec_witness :
    0 ≤ runFocusCmds [FocusCmd.next, FocusCmd.next, FocusCmd.prev] ∧
      runFocusCmds [FocusCmd.next, FocusCmd.next, FocusCmd.prev] < 9 :=
  (focus_index_in_bounds_spec [FocusCmd.next, FocusCmd.next, FocusCmd.prev]).1

/-- Witness for `camera_distance_invariant_spec` on a concrete event
list (a huge zoom-out scroll). -/
theorem camera_distance_invariant_spec_witness :
    5 ≤ (runCamEvents [CamEvent.scroll (-1000)]).camDist ∧
      (runCamEvents [CamEvent.scroll (-1000)]).camDist ≤ 400 :=
  ⟨(camera_distance_invariant_spec [CamEvent.scroll (-1000)]).1,
    (camera_distance_invariant_spec [CamEvent.scroll (-1000)]).2.1⟩

/-- Witness for `free_move_speed_spec` with only `W` held. -/
theorem free_move_speed_spec_witness :
    freeMoveStep true 1 0 ⟨true, false, false, false, false, false⟩ origin =
      origin + ((if true then (25 : ℝ) else 8) * 1) •
        moveCombo ⟨true, false, false, false, false, false⟩ 0 :=
  (free_move_speed_spec true 1 0 ⟨true, false, false, false, false, false⟩
    origin).1

/-- Witness for `shared_yaw_pitch_spec` at the initial globals. -/
theorem shared_yaw_pitch_spec_witness :
    orbitCamPos initCamGlobals =
      initCamGlobals.camDist •
        sphericalDir initCamGlobals.camYaw initCamGlobals.camPitch :=
  (shared_yaw_pitch_spec initCamGlobals 1 1).2.2.1

end SolarSystem
